import Mathlib

/-!
Verification development for the DIT offload tool (`dit_offload.py`).

The definitions below are a shallow embedding of the behaviourally relevant
parts of the Python source:

* `TransferEngine._parse_progress` (the rclone output-line classifier),
* `ChecksumVerifier._calculate_hash` / `_verify_file` / `verify_transfer`
  (the concurrent verification engine),
* `TransferEngine._pre_flight_check` and the `finished`-event handling in
  `ProfessionalDITApp` (the stage transitions around copy completion and
  abort).

File contents are modelled as `List Nat` (byte sequences), the file system
as explicit parameters (contents of the source files, an optional content
per destination path), and the cooperative-cancellation flag `self.running`
as a `Nat → Bool` giving the value observed at each successive check point.
-/

/-! ## Progress parsing (`TransferEngine._parse_progress`)

The Python code runs three `re.search` calls over the stripped output line:

* `(\d+)%` - first maximal digit run immediately followed by a percent sign;
  if absent the function returns `None`;
* `([\d.]+)\s*([KMG]?i?B)/s` - the whole matched text is the speed, with
  the fallback string `N/A`;
* `ETA\s*([\dhms]+)` - the captured run is the ETA, with fallback `N/A`.

The scanners below implement exactly the leftmost-match semantics of those
three patterns over the ASCII characters the tool emits.  `re.search`
scans candidate start positions from the left; at a fixed start position a
greedy character class only ever matches its maximal run here, because the
character that follows a maximal run can never match the rest of the
pattern (a digit or dot cannot be a unit letter, whitespace cannot be `B`,
and so on), so no backtracking below the maximal run can succeed. -/

/-- Leftmost occurrence of pattern `(\d+)%`: the accumulator holds the value
of the digit run ending just before the current position (`none` when the
previous character is not a digit); the run is reset by any non-digit. -/
def scanPercent : Option Nat → List Char → Option Nat
  | _, [] => none
  | run, c :: rest =>
    if c.isDigit then
      scanPercent (some ((Option.getD run 0) * 10 + (c.toNat - 48))) rest
    else if c = '%' then
      match run with
      | some n => some n
      | none => scanPercent none rest
    else scanPercent none rest

/-- `re.search(r'(\d+)%', line)` returning `int(group(1))`. -/
def findPercent (l : List Char) : Option Nat :=
  scanPercent none l

/-- Character class `[\d.]`. -/
def isNumDot (c : Char) : Bool :=
  c.isDigit || c = '.'

/-- Character class `\s` (ASCII part, which is all rclone emits). -/
def isPySpace (c : Char) : Bool :=
  c = ' ' || c = '\t' || c = '\n' || c = '\r' || c.toNat = 11 || c.toNat = 12

/-- Character class `[KMG]`. -/
def isKMG (c : Char) : Bool :=
  c = 'K' || c = 'M' || c = 'G'

/-- Literal tail `B/s` of the speed pattern; returns the consumed characters
and the remainder. -/
def speedTailB : List Char → Option (List Char × List Char)
  | 'B' :: '/' :: 's' :: rest => some (['B', '/', 's'], rest)
  | _ => none

/-- Optional `i` followed by `B/s` (the `i?B/s` tail), greedy first. -/
def speedTailI (l : List Char) : Option (List Char × List Char) :=
  match l with
  | 'i' :: rest =>
    match speedTailB rest with
    | some (m, r) => some ('i' :: m, r)
    | none => speedTailB l
  | _ => speedTailB l

/-- Optional `[KMG]` followed by `i?B/s` (the `[KMG]?i?B/s` tail), greedy
first. -/
def speedTail (l : List Char) : Option (List Char × List Char) :=
  match l with
  | c :: rest =>
    if isKMG c then
      match speedTailI rest with
      | some (m, r) => some (c :: m, r)
      | none => speedTailI l
    else speedTailI l
  | [] => none

/-- `re.search(r'([\d.]+)\s*([KMG]?i?B)/s', line)` returning `group(0)`:
try each start position from the left; a start can only match when it
begins with `[\d.]`, after which only the maximal `[\d.]+` and `\s*` runs
can possibly be followed by the unit tail. -/
def findSpeed : List Char → Option String
  | [] => none
  | c :: rest =>
    if isNumDot c then
      let num := List.takeWhile isNumDot (c :: rest)
      let afterNum := List.dropWhile isNumDot (c :: rest)
      let ws := List.takeWhile isPySpace afterNum
      let afterWs := List.dropWhile isPySpace afterNum
      match speedTail afterWs with
      | some (m, _) => some (List.asString (num ++ ws ++ m))
      | none => findSpeed rest
    else findSpeed rest

/-- Character class `[\dhms]`. -/
def isEtaChar (c : Char) : Bool :=
  c.isDigit || c = 'h' || c = 'm' || c = 's'

/-- `re.search(r'ETA\s*([\dhms]+)', line)` returning `group(1)`. -/
def findEta : List Char → Option String
  | 'E' :: 'T' :: 'A' :: rest =>
    let afterWs := List.dropWhile isPySpace rest
    let run := List.takeWhile isEtaChar afterWs
    if run.isEmpty then findEta ('T' :: 'A' :: rest)
    else some (List.asString run)
  | _ :: rest => findEta rest
  | [] => none

/-- `TransferEngine._parse_progress`: `None` when no percentage token is
found, otherwise the percentage together with the speed and ETA strings
(each with its `N/A` fallback).  The Python body is wrapped in a
`try/except` that returns `None`, but every operation in it is total, so
the embedding is a total function. -/
def parse_progress (line : String) : Option (Nat × String × String) :=
  match findPercent line.data with
  | none => none
  | some percent =>
    let speed := match findSpeed line.data with
      | some s => s
      | none => "N/A"
    let eta := match findEta line.data with
      | some e => e
      | none => "N/A"
    some (percent, speed, eta)

/-- A line that contains no percent sign at all cannot match `(\d+)%`. -/
theorem scanPercent_none_of_no_percent (l : List Char) :
    ∀ run : Option Nat, '%' ∉ l → scanPercent run l = none := by
  induction l with
  | nil => intro run _; rfl
  | cons c rest ih =>
    intro run h
    have hc : ¬ (c = '%') := by
      intro hc; exact h (hc ▸ List.mem_cons_self c rest)
    have hrest : '%' ∉ rest := fun hm => h (List.mem_cons_of_mem c hm)
    by_cases hd : c.isDigit = true
    · simp only [scanPercent, if_pos hd]
      exact ih _ hrest
    · simp only [scanPercent, if_neg hd, if_neg hc]
      exact ih _ hrest

/-! ## Verification engine (`ChecksumVerifier`)

`_calculate_hash` reads the file in 8192-byte chunks; before folding each
chunk into the digest it checks the shared `self.running` flag and returns
`None` when the flag has been cleared.  A file of `n` bytes therefore
performs `⌈n / 8192⌉` flag checks, and the digest (when produced) is the
hash of the whole content.  `running i` below is the flag value observed at
the check preceding chunk `i`; `hashF` is the digest function selected from
`SUPPORTED_ALGORITHMS`. -/

/-- `ChecksumVerifier._calculate_hash`. -/
def calculate_hash (running : Nat → Bool) (hashF : List Nat → String)
    (content : List Nat) : Option String :=
  if (List.range ((content.length + 8191) / 8192)).all running then
    some (hashF content)
  else none

/-- When the flag stays set for the whole file, the digest is computed. -/
theorem calculate_hash_of_running (running : Nat → Bool)
    (hashF : List Nat → String) (content : List Nat)
    (hr : ∀ i, running i = true) :
    calculate_hash running hashF content = some (hashF content) := by
  have : (List.range ((content.length + 8191) / 8192)).all running = true :=
    List.all_eq_true.mpr (fun i _ => hr i)
  simp [calculate_hash, this]

/-- Per-file outcome record built by `ChecksumVerifier._verify_file`
(the keys of the Python `result` dict). -/
structure VerifyResult where
  success : Bool
  error : String
  source_hash : Option String
  dest_hash : Option String
  source_size : Option Nat
  dest_size : Option Nat
deriving Repr, DecidableEq

/-- `ChecksumVerifier._verify_file`, together with the number of
`_calculate_hash` invocations it performed (0 or 2): the destination
existence check comes first, then the size comparison (when enabled), and
only then the two hash computations (when enabled).  `srcContent` is the
content of the source file (the file was just listed, so it exists);
`dstContent` is `none` when the destination file does not exist. -/
def verify_file (running : Nat → Bool) (hashF : List Nat → String)
    (verify_checksum verify_size : Bool) (dst_file : String)
    (srcContent : List Nat) (dstContent : Option (List Nat)) :
    VerifyResult × Nat :=
  match dstContent with
  | none =>
    ({ success := false, error := "Destination file not found: " ++ dst_file,
       source_hash := none, dest_hash := none,
       source_size := none, dest_size := none }, 0)
  | some dc =>
    let src_size := srcContent.length
    let dst_size := dc.length
    if verify_size && (src_size != dst_size) then
      ({ success := false,
         error := "File size mismatch: source=" ++ toString src_size
           ++ ", dest=" ++ toString dst_size,
         source_hash := none, dest_hash := none,
         source_size := some src_size, dest_size := some dst_size }, 0)
    else if verify_checksum then
      let src_hash := calculate_hash running hashF srcContent
      let dst_hash := calculate_hash running hashF dc
      match src_hash, dst_hash with
      | none, dh =>
        ({ success := false, error := "Failed to calculate hash",
           source_hash := none, dest_hash := dh,
           source_size := some src_size, dest_size := some dst_size }, 2)
      | some s, none =>
        ({ success := false, error := "Failed to calculate hash",
           source_hash := some s, dest_hash := none,
           source_size := some src_size, dest_size := some dst_size }, 2)
      | some s, some d =>
        if s != d then
          ({ success := false,
             error := "Hash mismatch: source=" ++ s ++ ", dest=" ++ d,
             source_hash := some s, dest_hash := some d,
             source_size := some src_size, dest_size := some dst_size }, 2)
        else
          ({ success := true, error := "",
             source_hash := some s, dest_hash := some d,
             source_size := some src_size, dest_size := some dst_size }, 2)
    else
      ({ success := true, error := "",
         source_hash := none, dest_hash := none,
         source_size := some src_size, dest_size := some dst_size }, 0)

/-- `os.path.join(dst_path, rel_path)`. -/
def joinPath (dir file : String) : String :=
  dir ++ "/" ++ file

/-- The result-collection loop of `ChecksumVerifier.verify_transfer`: each
task is a `(rel_path, source content)` pair, its destination path is
`join(dst_path, rel_path)`, and the loop counts successes and failures and
collects the failing files.  Futures complete in an unspecified order; the
counts are order-independent, so completion order is modelled as the
submission order of the task list.  (The per-future wall-clock timeout
branch has no shallow counterpart and is not modelled.) -/
def runTasks (running : Nat → Bool) (hashF : List Nat → String)
    (verify_checksum verify_size : Bool) (dstPath : String)
    (dstFS : String → Option (List Nat)) :
    List (String × List Nat) → Nat × Nat × List (String × VerifyResult)
  | [] => (0, 0, [])
  | (rel, content) :: rest =>
    let dst_file := joinPath dstPath rel
    let r := (verify_file running hashF verify_checksum verify_size dst_file
      content (dstFS dst_file)).fst
    let acc := runTasks running hashF verify_checksum verify_size dstPath dstFS rest
    if r.success then (acc.1 + 1, acc.2.1, acc.2.2)
    else (acc.1, acc.2.1 + 1, (rel, r) :: acc.2.2)

/-- The algorithm table `ChecksumVerifier.SUPPORTED_ALGORITHMS` (its keys). -/
def supportedAlgorithms : List String :=
  ["md5", "sha1", "sha256", "sha512"]

/-- `ChecksumVerifier.verify_transfer`: an unknown algorithm name is
silently replaced by `md5` before the hash function is selected, then the
worker pool runs every task.  `hashFuncs` maps an algorithm name to its
digest function. -/
def verify_transfer (hashFuncs : String → List Nat → String)
    (running : Nat → Bool) (algorithm : String)
    (verify_checksum verify_size : Bool)
    (tasks : List (String × List Nat)) (dstPath : String)
    (dstFS : String → Option (List Nat)) :
    Nat × Nat × List (String × VerifyResult) :=
  let algo := if supportedAlgorithms.contains algorithm then algorithm else "md5"
  runTasks running (hashFuncs algo) verify_checksum verify_size dstPath dstFS tasks

/-- The per-task outcome of `_verify_file`, as a function of the task's own
`(rel_path, content)` pair alone. -/
def taskResult (running : Nat → Bool) (hashF : List Nat → String)
    (verify_checksum verify_size : Bool) (dstPath : String)
    (dstFS : String → Option (List Nat)) (t : String × List Nat) : VerifyResult :=
  (verify_file running hashF verify_checksum verify_size (joinPath dstPath t.1)
    t.2 (dstFS (joinPath dstPath t.1))).fst

/-- The collection loop decomposes task-wise: the verified and failed
counts and the failure list are determined by each task's own result. -/
theorem runTasks_decomposition (running : Nat → Bool) (hashF : List Nat → String)
    (verify_checksum verify_size : Bool) (dstPath : String)
    (dstFS : String → Option (List Nat)) (tasks : List (String × List Nat)) :
    runTasks running hashF verify_checksum verify_size dstPath dstFS tasks =
      (tasks.countP (fun t =>
         (taskResult running hashF verify_checksum verify_size dstPath dstFS t).success),
       tasks.countP (fun t =>
         !(taskResult running hashF verify_checksum verify_size dstPath dstFS t).success),
       tasks.filterMap (fun t =>
         if (taskResult running hashF verify_checksum verify_size dstPath dstFS t).success
         then none else some (t.1, taskResult running hashF verify_checksum verify_size dstPath dstFS t))) := by
  induction tasks with
  | nil => rfl
  | cons t rest ih =>
    obtain ⟨rel, content⟩ := t
    have hts : taskResult running hashF verify_checksum verify_size dstPath dstFS
        (rel, content) =
        (verify_file running hashF verify_checksum verify_size (joinPath dstPath rel)
          content (dstFS (joinPath dstPath rel))).fst := rfl
    by_cases hs : (verify_file running hashF verify_checksum verify_size
        (joinPath dstPath rel) content (dstFS (joinPath dstPath rel))).fst.success = true
    · simp [runTasks, List.countP_cons, List.filterMap_cons, hts, hs, ih]
    · simp [runTasks, List.countP_cons, List.filterMap_cons, hts, hs, ih]

/-! ## Copy completion, abort and pre-flight (`TransferEngine`,
`ProfessionalDITApp`)

`TransferEngine.run_transfer` ends in a `finally` block that always
enqueues the `finished` event - after a normal exit, a nonzero exit, an
abort, or even a failed pre-flight - and neither that block nor
`ProfessionalDITApp.on_transfer_finished` ever reads
`self.process.returncode`.  The handler decides what to do next purely
from the verification settings and the current source/destination
entries. -/

/-- What `on_transfer_finished` launches next. -/
inductive NextAction
  | startVerification
  | completeNoVerification
deriving DecidableEq, Repr

/-- The application fields read or written around copy completion:
the control flags, the verification settings of `ConfigManager`, the
(stripped) text of the two path entries, and the file-system facts the
handler queries (`os.path.exists(source)`, `os.path.isdir(destination)`). -/
structure AppState where
  aborted : Bool
  is_transferring : Bool
  is_verifying : Bool
  hasEngine : Bool
  verify_checksum : Bool
  verify_file_size : Bool
  source : String
  destination : String
  sourceExists : Bool
  destIsDir : Bool
deriving DecidableEq, Repr

/-- `ProfessionalDITApp.stop_transfer`: when a transfer is active, an
engine exists and the user confirms the dialog, the abort flag is set
(and `engine.stop()` terminates the rclone process). -/
def stop_transfer (st : AppState) (confirmAbort : Bool) : AppState :=
  if st.is_transferring && st.hasEngine && confirmAbort then
    { st with aborted := true }
  else st

/-- `ProfessionalDITApp.on_transfer_finished`, the handler of the
`finished` event: it returns the updated state and the action taken
(`none` when there is no engine and the handler returns immediately).
Note that it unconditionally clears the abort flag and that the branch
condition mentions only the verification settings and path validity. -/
def on_transfer_finished (st : AppState) : AppState × Option NextAction :=
  if !st.hasEngine then (st, none)
  else
    let st1 := { st with is_transferring := false, aborted := false }
    if (st1.verify_checksum || st1.verify_file_size) && (!st1.source.isEmpty)
        && (!st1.destination.isEmpty) && st1.sourceExists && st1.destIsDir then
      ({ st1 with is_verifying := true }, some NextAction.startVerification)
    else
      (st1, some NextAction.completeNoVerification)

/-- The complete reaction to the supervised process exiting: `run_transfer`
enqueues a bare `finished` event in its `finally` block - the event does
not carry the exit code, and the handler never reads
`process.returncode` - so the next action is `on_transfer_finished` of the
current state, whatever `exitCode` was. -/
def transfer_finished_action (exitCode : Int) (st : AppState) :
    AppState × Option NextAction :=
  on_transfer_finished st

/-- The file-system facts around `TransferEngine._pre_flight_check`.  The
first six fields beyond the two existence bits record properties of the
same file-system snapshot that the specified capacity and emptiness checks
would consult; the code never reads them. -/
structure PreflightEnv where
  srcExists : Bool
  srcIsDir : Bool
  srcFileCount : Nat
  srcTotalBytes : Nat
  dstParentExists : Bool
  dstParentCreatable : Bool
  dstFreeBytes : Nat
  srcResolved : String
  dstResolved : String
deriving DecidableEq, Repr

/-- `TransferEngine._pre_flight_check`: source must exist, the destination
parent must exist or be creatable, and the resolved paths must differ.
Nothing else is checked and nothing is computed for later stages. -/
def pre_flight_check (e : PreflightEnv) : Bool :=
  if !e.srcExists then false
  else if !e.dstParentExists && !e.dstParentCreatable then false
  else if e.srcResolved == e.dstResolved then false
  else true

/-- A valid mid-transfer state used by the concrete counterexamples. -/
def sampleRunState : AppState :=
  { aborted := false, is_transferring := true, is_verifying := false,
    hasEngine := true, verify_checksum := true, verify_file_size := true,
    source := "/media/cardA", destination := "/backup/shoot1",
    sourceExists := true, destIsDir := true }

/-- A file-system snapshot violating the specified capacity check: one
source file of 100 bytes, no free space at the destination. -/
def samplePreflightEnv : PreflightEnv :=
  { srcExists := true, srcIsDir := true, srcFileCount := 1, srcTotalBytes := 100,
    dstParentExists := true, dstParentCreatable := true, dstFreeBytes := 0,
    srcResolved := "/media/cardA", dstResolved := "/backup/shoot1" }

/-! ## Claims -/

/-- C1 counterexample: with verification enabled and valid paths, a copy
run whose process exited with the nonzero code 1 still proceeds to start
verification - it does not transition to a failed state, contradicting
"nonzero exit transitions to Failed (not Verifying)". -/
theorem nonzero_exit_still_starts_verification :
    (transfer_finished_action 1 sampleRunState).2 = some NextAction.startVerification
    ∧ (1 : Int) ≠ 0 :=
  ⟨rfl, by decide⟩

/-- C1 (amended): the stage transition after the supervised process exits
is independent of the exit code - the `finished` event carries no exit
code and the handler never reads it - and whenever verification is enabled
and the paths are valid the run proceeds to verification, for every exit
code alike. -/
theorem transfer_finished_ignores_exit_code (exitCode exitCode2 : Int)
    (st : AppState) :
    transfer_finished_action exitCode st = transfer_finished_action exitCode2 st
    ∧ (st.hasEngine = true →
        ((st.verify_checksum || st.verify_file_size) && (!st.source.isEmpty)
          && (!st.destination.isEmpty) && st.sourceExists && st.destIsDir) = true →
        (transfer_finished_action exitCode st).2 = some NextAction.startVerification) := by
  refine ⟨rfl, ?_⟩
  intro hE hcond
  simp [transfer_finished_action, on_transfer_finished, hE, hcond]

/-- C1 witness: the amended statement at exit codes 2 and 0 in the sample
mid-transfer state. -/
theorem transfer_finished_ignores_exit_code_witness :
    transfer_finished_action 2 sampleRunState = transfer_finished_action 0 sampleRunState
    ∧ (transfer_finished_action 2 sampleRunState).2 = some NextAction.startVerification :=
  ⟨(transfer_finished_ignores_exit_code 2 0 sampleRunState).1,
   (transfer_finished_ignores_exit_code 2 0 sampleRunState).2 rfl (by decide)⟩

/-- C2 counterexample: aborting a run (confirmed stop request during an
active transfer) sets the abort flag, yet the subsequent `finished`
handler starts the verification stage - the run does not end in a
terminal aborted state. -/
theorem abort_then_verification_starts :
    (stop_transfer sampleRunState true).aborted = true
    ∧ (on_transfer_finished (stop_transfer sampleRunState true)).2 =
        some NextAction.startVerification :=
  ⟨rfl, rfl⟩

/-- C2 (amended): an abort terminates the copy process, but the run then
takes the same `finished` path as a normal completion: the handler clears
the abort flag and starts verification whenever verification is enabled
and the paths are valid. -/
theorem abort_clears_flag_and_proceeds (st : AppState)
    (ht : st.is_transferring = true) (he : st.hasEngine = true) :
    (stop_transfer st true).aborted = true
    ∧ (on_transfer_finished (stop_transfer st true)).1.aborted = false
    ∧ (((st.verify_checksum || st.verify_file_size) && (!st.source.isEmpty)
        && (!st.destination.isEmpty) && st.sourceExists && st.destIsDir) = true →
        (on_transfer_finished (stop_transfer st true)).2 =
          some NextAction.startVerification) := by
  have hs : stop_transfer st true = { st with aborted := true } := by
    simp [stop_transfer, ht, he]
  refine ⟨by simp [hs], ?_, ?_⟩
  · simp [hs, on_transfer_finished, he, apply_ite]
  · intro hcond
    simp [hs, on_transfer_finished, he, hcond]

/-- C2 witness: the amended statement in the sample mid-transfer state. -/
theorem abort_clears_flag_and_proceeds_witness :
    (stop_transfer sampleRunState true).aborted = true
    ∧ (on_transfer_finished (stop_transfer sampleRunState true)).1.aborted = false :=
  ⟨(abort_clears_flag_and_proceeds sampleRunState rfl rfl).1,
   (abort_clears_flag_and_proceeds sampleRunState rfl rfl).2.1⟩

/-- C3 counterexample: the pre-flight check passes on a snapshot whose
destination free space (0 bytes) is smaller than the total source size
(100 bytes), so no capacity validation takes place; nor is any file count
or byte total produced (the check returns a bare boolean). -/
theorem preflight_passes_despite_no_free_space :
    pre_flight_check samplePreflightEnv = true
    ∧ samplePreflightEnv.dstFreeBytes < samplePreflightEnv.srcTotalBytes :=
  ⟨rfl, by decide⟩

/-- C3 (amended): the pre-flight check validates exactly source existence,
destination-parent existence or creatability, and that the resolved
source and destination differ; it checks neither directory-ness nor
non-emptiness nor free space, and computes no file count or byte total. -/
theorem preflight_checks_only_paths (e : PreflightEnv) :
    pre_flight_check e = true ↔
      (e.srcExists = true
        ∧ (e.dstParentExists = true ∨ e.dstParentCreatable = true)
        ∧ e.srcResolved ≠ e.dstResolved) := by
  rcases e with ⟨se, sd, fc, tb, pe, pc, fb, sr, dr⟩
  by_cases hr : sr = dr <;>
    cases se <;> cases pe <;> cases pc <;>
    simp [pre_flight_check, hr]

/-- C4 counterexample: an aggregate line whose percentage token is 150
parses to the out-of-range percentage 150, and an aggregate line with no
percentage token parses to `none` rather than a zero percentage. -/
theorem progress_parse_over_100_and_none :
    parse_progress "Transferred: 1.5 GiB / 1.0 GiB, 150%, 1.5 MiB/s, ETA 10s"
      = some (150, "1.5 MiB/s", "10s")
    ∧ ¬ ((150 : Nat) ≤ 100)
    ∧ parse_progress "Transferred: 0 B / 150 GB" = none :=
  ⟨rfl, by decide, rfl⟩

/-- C4 (amended): for every line without a percent sign the parser returns
`none` (not a zero percentage), and when it does return a result the
percentage is the unmodified integer matched before the percent sign -
a natural number, but not clamped to 100. -/
theorem progress_parse_unclamped (line : String) :
    ('%' ∉ line.data → parse_progress line = none)
    ∧ (∀ p s e, parse_progress line = some (p, s, e) →
        findPercent line.data = some p) := by
  constructor
  · intro h
    have hf : findPercent line.data = none :=
      scanPercent_none_of_no_percent _ _ h
    simp [parse_progress, hf]
  · intro p s e h
    cases hf : findPercent line.data with
    | none => simp [parse_progress, hf] at h
    | some q =>
      simp [parse_progress, hf] at h
      rw [h.1]

/-- C4 witness: the amended statement at the line containing only the
token 7 percent. -/
theorem progress_parse_unclamped_witness :
    parse_progress "7%" = some (7, "N/A", "N/A")
    ∧ findPercent (String.data "7%") = some 7 :=
  ⟨rfl, (progress_parse_unclamped "7%").2 7 "N/A" "N/A" rfl⟩

/-- C5 counterexample: a hash over a 8193-byte file (two chunks) whose
first chunk was processed while the flag was still set is abandoned when
the flag is observed cleared at the second chunk - the in-flight hash does
not run to completion, it returns no digest. -/
theorem hash_interrupted_mid_flight :
    calculate_hash (fun j => decide (j = 0)) (fun _ => "digest")
        (List.replicate 8193 0) = none
    ∧ (fun j : Nat => decide (j = 0)) 0 = true
    ∧ (List.replicate 8193 (0 : Nat)).length ≠ 0 := by
  refine ⟨?_, rfl, ?_⟩
  · simp only [calculate_hash]
    rw [List.length_replicate]
    decide
  · rw [List.length_replicate]
    norm_num

/-- C5 (amended): the cancellation flag is checked before every 8192-byte
chunk inside each in-flight hash computation: the digest is produced only
when the flag is set at every chunk, and a flag observed cleared at any
chunk makes the computation return no digest instead of running to
completion. -/
theorem calculate_hash_flag_semantics (running : Nat → Bool)
    (hashF : List Nat → String) (content : List Nat) :
    ((∀ i, running i = true) →
        calculate_hash running hashF content = some (hashF content))
    ∧ (∀ i, i < (content.length + 8191) / 8192 → running i = false →
        calculate_hash running hashF content = none) := by
  constructor
  · exact calculate_hash_of_running running hashF content
  · intro i hi hfalse
    have hall : ¬ ((List.range ((content.length + 8191) / 8192)).all running = true) := by
      intro hall
      have := List.all_eq_true.mp hall i (List.mem_range.mpr hi)
      rw [hfalse] at this
      exact Bool.false_ne_true this
    simp [calculate_hash, hall]

/-- C5 witness: the amended statement with a flag that stays set over a
three-byte file. -/
theorem calculate_hash_flag_semantics_witness :
    calculate_hash (fun _ => true) (fun _ => "h") [1, 2, 3] = some "h" :=
  (calculate_hash_flag_semantics (fun _ => true) (fun _ => "h") [1, 2, 3]).1
    (fun _ => rfl)

/-- C6: with checksum verification enabled and an uninterrupted run, a
destination file with exactly the source's bytes verifies as a success;
and when size checking is enabled a destination one byte shorter yields
the size-mismatch failure with zero hash computations performed (the size
check short-circuits hashing). -/
theorem identical_success_and_size_mismatch_short_circuit
    (running : Nat → Bool) (hashF : List Nat → String) (verify_size : Bool)
    (dst_file : String) (c : List Nat)
    (hr : ∀ i, running i = true) (hc : c ≠ []) :
    (verify_file running hashF true verify_size dst_file c (some c)).fst.success = true
    ∧ verify_file running hashF true true dst_file c (some c.dropLast) =
      ({ success := false,
         error := "File size mismatch: source=" ++ toString c.length
           ++ ", dest=" ++ toString (c.length - 1),
         source_hash := none, dest_hash := none,
         source_size := some c.length, dest_size := some (c.length - 1) }, 0) := by
  constructor
  · have h1 := calculate_hash_of_running running hashF c hr
    simp [verify_file, h1]
  · have hne : (c.length != c.length - 1) = true := by
      have : c.length ≠ c.length - 1 := by
        have := List.length_pos.mpr hc
        omega
      simpa [bne_iff_ne] using this
    simp [verify_file, List.length_dropLast, hne]

/-- C6 witness: the statement at the one-byte file `[7]`. -/
theorem identical_success_and_size_mismatch_short_circuit_witness :
    (verify_file (fun _ => true) (fun l => toString l.length) true true ("/d/f")
        [7] (some [7])).fst.success = true
    ∧ verify_file (fun _ => true) (fun l => toString l.length) true true ("/d/f")
        [7] (some (List.dropLast [7])) =
      ({ success := false,
         error := "File size mismatch: source=" ++ toString (List.length ([7] : List Nat))
           ++ ", dest=" ++ toString (List.length ([7] : List Nat) - 1),
         source_hash := none, dest_hash := none,
         source_size := some (List.length ([7] : List Nat)),
         dest_size := some (List.length ([7] : List Nat) - 1) }, 0) :=
  identical_success_and_size_mismatch_short_circuit (fun _ => true)
    (fun l => toString l.length) true ("/d/f") [7] (fun _ => rfl) (by decide)

/-- C7: a task whose destination file is missing yields the not-found
failure with no sizes and no hashes computed; a task whose destination
content equals its source verifies as a success; and the collection loop
decomposes task-wise, so each task's outcome - and hence a missing file -
affects only its own entry in the counts and the failure list. -/
theorem missing_dest_isolated_failure (running : Nat → Bool)
    (hashF : List Nat → String) (verify_checksum verify_size : Bool)
    (dst_file : String) (c : List Nat)
    (hr : ∀ i, running i = true) :
    verify_file running hashF verify_checksum verify_size dst_file c none =
      ({ success := false, error := "Destination file not found: " ++ dst_file,
         source_hash := none, dest_hash := none,
         source_size := none, dest_size := none }, 0)
    ∧ (verify_file running hashF verify_checksum verify_size dst_file c
        (some c)).fst.success = true
    ∧ (∀ tasks dstPath dstFS,
        runTasks running hashF verify_checksum verify_size dstPath dstFS tasks =
          (tasks.countP (fun t =>
             (taskResult running hashF verify_checksum verify_size dstPath dstFS t).success),
           tasks.countP (fun t =>
             !(taskResult running hashF verify_checksum verify_size dstPath dstFS t).success),
           tasks.filterMap (fun t =>
             if (taskResult running hashF verify_checksum verify_size dstPath dstFS t).success
             then none
             else some (t.1, taskResult running hashF verify_checksum verify_size dstPath dstFS t)))) := by
  refine ⟨rfl, ?_, ?_⟩
  · have h1 := calculate_hash_of_running running hashF c hr
    cases verify_checksum <;> simp [verify_file, h1]
  · intro tasks dstPath dstFS
    exact runTasks_decomposition running hashF verify_checksum verify_size dstPath dstFS tasks

/-- C7 witness: the statement at a concrete missing destination file. -/
theorem missing_dest_isolated_failure_witness :
    verify_file (fun _ => true) (fun l => toString l.length) true true ("dst/b")
        [2] none =
      ({ success := false, error := "Destination file not found: " ++ "dst/b",
         source_hash := none, dest_hash := none,
         source_size := none, dest_size := none }, 0) :=
  (missing_dest_isolated_failure (fun _ => true) (fun l => toString l.length)
    true true ("dst/b") [2] (fun _ => rfl)).1

/-- C8: the progress parser is total - every line yields either a parsed
event or `none` (the embedding is a total function, matching the Python
body whose operations cannot raise) - and a malformed line with no percent
sign yields `none`. -/
theorem parse_progress_total (line : String) :
    (parse_progress line = none ∨ ∃ ev, parse_progress line = some ev)
    ∧ ('%' ∉ line.data → parse_progress line = none) := by
  constructor
  · cases h : parse_progress line with
    | none => exact Or.inl rfl
    | some ev => exact Or.inr ⟨ev, rfl⟩
  · intro h
    have hf : findPercent line.data = none :=
      scanPercent_none_of_no_percent _ _ h
    simp [parse_progress, hf]

/-- C8 witness: the statement at a plain log line. -/
theorem parse_progress_total_witness :
    ('%' ∉ (String.data "hello")) ∧ parse_progress "hello" = none :=
  ⟨by decide, (parse_progress_total "hello").2 (by decide)⟩

/-- C9: an algorithm name outside the supported table is not rejected:
`verify_transfer` silently behaves exactly as it does with `md5`. -/
theorem unknown_algorithm_falls_back_to_md5
    (hashFuncs : String → List Nat → String) (running : Nat → Bool)
    (algorithm : String) (verify_checksum verify_size : Bool)
    (tasks : List (String × List Nat)) (dstPath : String)
    (dstFS : String → Option (List Nat))
    (h : supportedAlgorithms.contains algorithm = false) :
    verify_transfer hashFuncs running algorithm verify_checksum verify_size
        tasks dstPath dstFS =
      verify_transfer hashFuncs running "md5" verify_checksum verify_size
        tasks dstPath dstFS := by
  have h' : algorithm ∉ supportedAlgorithms := by simpa using h
  have hm : "md5" ∈ supportedAlgorithms := by decide
  simp [verify_transfer, h', hm]

/-- C9 witness: the statement at the unsupported algorithm name crc32. -/
theorem unknown_algorithm_falls_back_to_md5_witness :
    verify_transfer (fun _ _ => "") (fun _ => true) ("crc32") true true
        [(("a"), [1])] ("d") (fun _ => none) =
      verify_transfer (fun _ _ => "") (fun _ => true) ("md5") true true
        [(("a"), [1])] ("d") (fun _ => none) :=
  unknown_algorithm_falls_back_to_md5 (fun _ _ => "") (fun _ => true) ("crc32")
    true true [(("a"), [1])] ("d") (fun _ => none) (by decide)

/-- C10: with both checksum and size verification disabled, a task
succeeds exactly when its destination file exists - content and size are
never consulted, and only a missing destination produces a failure. -/
theorem no_checks_success_iff_dest_exists (running : Nat → Bool)
    (hashF : List Nat → String) (dst_file : String) (c : List Nat)
    (odc : Option (List Nat)) :
    (verify_file running hashF false false dst_file c odc).fst.success = odc.isSome := by
  cases odc <;> simp [verify_file]
